import Mathlib

/-!
Verification development for the Gemini weather chatbot backend
(`main.py`): a FastAPI app that validates a chat request, persists the
user turn to a DynamoDB table, loads recent history, calls the Gemini
model (optionally fulfilling one `get_weather` tool call against the
OpenWeather HTTP API), persists the bot turn and responds.

Shallow embedding conventions:
* ISO-8601 UTC timestamps are modelled as abstract `Nat` clock values
  (the code only compares them as sort keys).
* JSON documents are modelled by the inductive `JVal`; the Python
  `json.dumps` result of `get_weather` is modelled by the `JVal` it
  serialises.
* Python exceptions are values of `PyError`; a fallible step returns
  `Except`.  Raising discards no prior side effect, so stateful steps
  return `Except (PyError × S) (α × S)`: the error carries the state at
  the raise point.
* External collaborators (wall clock, DynamoDB put outcome, Gemini
  responses, OpenWeather provider) are supplied as an `Env` record of
  functions; each request makes at most two model calls, so the two
  responses are `model1` and `model2` (the latter a function of the
  tool payload fed back to the model).
* Outbound effects are recorded in an event trace (`Event`) inside the
  per-request state `S`.
-/

namespace WeatherApp

/-- JSON values (`null`, strings, numbers, arrays, objects).  Numbers are
modelled as integers; no claim depends on fractional temperatures. -/
inductive JVal where
  | null
  | str (s : String)
  | num (n : Int)
  | arr (xs : List JVal)
  | obj (fields : List (String × JVal))

/-- Python exceptions that the code can raise or handle. -/
inductive PyError where
  /-- `NameError`: a global name was never bound (e.g. `chat_history_table`
  when `CHAT_HISTORY_TABLE_NAME` is unset). -/
  | nameError (name : String)
  /-- `IndexError` from indexing an empty list. -/
  | indexError
  /-- `KeyError` from a missing dict key. -/
  | keyError (key : String)
  /-- `AttributeError` from a missing attribute. -/
  | attributeError (name : String)
  /-- `TypeError` from subscripting a non-container. -/
  | typeError
  /-- FastAPI `HTTPException(status, detail)`. -/
  | httpException (status : Nat) (detail : String)
  /-- Pydantic request-validation failure (FastAPI answers 422). -/
  | validationError (detail : String)
  /-- boto3 `ClientError` raised by a failed `put_item`. -/
  | clientError (msg : String)
deriving DecidableEq, Repr

/-- Environment variables read at module import time (`os.getenv`). -/
structure Config where
  geminiApiKey : Option String
  weatherApiKey : Option String
  chatHistoryTableName : Option String
deriving DecidableEq, Repr

/-- Module-init lines 26-29: `chat_history_table` is bound (to a boto3
`Table`, carried here as its name) only when `CHAT_HISTORY_TABLE_NAME`
is truthy; otherwise the global name is left unbound, which `PyError.nameError`
models at every later access. -/
def initChatHistoryTable (cfg : Config) : Option String :=
  match cfg.chatHistoryTableName with
  | none => none
  | some n => if n = "" then none else some n

/-- One persisted DynamoDB item: `{UserID, Timestamp, Sender, Message}`. -/
structure Item where
  UserID : String
  Timestamp : Nat
  Sender : String
  Message : String
deriving DecidableEq, Repr

/-- One entry of the history list handed to `start_chat`:
`{"role": ..., "parts": [{"text": ...}]}`. -/
structure GeminiContent where
  role : String
  text : String
deriving DecidableEq, Repr

/-- Query parameters of the outbound OpenWeather GET:
`{"q": location, "appid": key, "units": ...}`.  `q` is `Option` because
`function_call.args.get('location')` can be `None`. -/
structure WeatherParams where
  q : Option String
  appid : Option String
  units : String
deriving DecidableEq, Repr

/-- What the weather provider does for a given request. -/
inductive ProviderBehavior where
  /-- `requests.get` raises a `RequestException` (connection error, ...). -/
  | netError (msg : String)
  /-- HTTP response whose body is not JSON: `.json()` raises
  `requests.exceptions.JSONDecodeError`, a `RequestException` subclass. -/
  | badJson (status : Nat) (msg : String)
  /-- HTTP response with the given status and parsed JSON body. -/
  | respond (status : Nat) (body : JVal)

/-- A `function_call` part of a Gemini response (name and args map). -/
structure FunctionCall where
  name : String
  args : List (String × String)
deriving DecidableEq, Repr

/-- One part of a Gemini candidate's content; `function_call` is `none`
when the part carries no (or an empty, hence falsy) function call. -/
structure Part where
  function_call : Option FunctionCall
deriving DecidableEq, Repr

structure Content where
  parts : List Part
deriving DecidableEq, Repr

structure Candidate where
  content : Content
deriving DecidableEq, Repr

/-- A Gemini response: its candidate list and its `.text` representation. -/
structure ModelResponse where
  candidates : List Candidate
  text : String
deriving DecidableEq, Repr

/-- Outbound effects of one request, in order. -/
inductive Event where
  /-- `chat_history_table.put_item(Item=...)`. -/
  | putItem (item : Item)
  /-- `chat_history_table.query(..., Limit=limit)` for a user. -/
  | queryHistory (user : String) (limit : Nat)
  /-- First `chat.send_message` (history supplied to `start_chat`, new message). -/
  | sendMessage1 (history : List GeminiContent) (message : String)
  /-- `requests.get` issued by `get_weather`. -/
  | weatherCall (params : WeatherParams)
  /-- Second `chat.send_message` carrying the tool-result payload. -/
  | sendMessage2 (payload : JVal)

/-- Per-request mutable world: the DynamoDB table contents, how many
`save_message` calls have happened (indexes the clock and the put
outcome), and the trace of outbound effects. -/
structure S where
  store : List Item
  saveCalls : Nat
  trace : List Event

/-- All external behaviour for one request. -/
structure Env where
  cfg : Config
  /-- The weather provider's reaction to a given outbound query. -/
  provider : WeatherParams → ProviderBehavior
  /-- `datetime.now(timezone.utc)` at the n-th `save_message` call. -/
  clock : Nat → Nat
  /-- Whether the n-th `put_item` succeeds (`false` = boto3 raises). -/
  putOk : Nat → Bool
  /-- Gemini's response to the first `send_message`. -/
  model1 : ModelResponse
  /-- Gemini's response to the second `send_message`, as a function of
  the tool-result part it is fed. -/
  model2 : JVal → ModelResponse

/-- `data[k]` on a parsed JSON document: `KeyError` when the key is
missing, `TypeError` when `data` is not an object. -/
def jGet (v : JVal) (k : String) : Except PyError JVal :=
  match v with
  | .obj fields =>
      match fields.lookup k with
      | some x => .ok x
      | none => .error (.keyError k)
  | _ => .error .typeError

/-- `data[i]` on a parsed JSON array: `IndexError` when out of range,
`TypeError` when not an array. -/
def jIndex (v : JVal) (i : Nat) : Except PyError JVal :=
  match v with
  | .arr xs =>
      match xs.get? i with
      | some x => .ok x
      | none => .error .indexError
  | _ => .error .typeError

/-- The `{"error": msg}` soft-failure payload of `get_weather`. -/
def jErr (msg : String) : JVal := .obj [("error", .str msg)]

/-- `response.raise_for_status()` raises `HTTPError` (a
`RequestException`) for 4xx and 5xx codes. -/
def isErrStatus (status : Nat) : Bool := 400 ≤ status && status < 600

/-- The params dict built on line 46:
`units` is "metric" for celsius and "imperial" otherwise. -/
def weatherParamsFor (env : Env) (location : Option String) (unit : String) :
    WeatherParams :=
  ⟨location, env.cfg.weatherApiKey, if unit = "celsius" then "metric" else "imperial"⟩

/-- `get_weather(location, unit="celsius")`, lines 43-53.  The
`try/except requests.exceptions.RequestException` converts network
errors, bad statuses and non-JSON bodies into `{"error": ...}`; the
field extraction `data["name"]`, `data["main"]["temp"]`,
`data["weather"][0]["description"]` is inside the `try` but raises
`KeyError`/`IndexError`/`TypeError`, which the `except` clause does not
catch.  The returned `JVal` models the `json.dumps` string. -/
def get_weather (env : Env) (location : Option String) (unit : String) :
    Except PyError JVal :=
  match env.provider (weatherParamsFor env location unit) with
  | .netError msg => .ok (jErr ("Failed to get weather data: " ++ msg))
  | .badJson status msg =>
      if isErrStatus status then
        .ok (jErr ("Failed to get weather data: HTTP " ++ toString status))
      else
        .ok (jErr ("Failed to get weather data: " ++ msg))
  | .respond status body =>
      if isErrStatus status then
        .ok (jErr ("Failed to get weather data: HTTP " ++ toString status))
      else do
        let name ← jGet body "name"
        let mainObj ← jGet body "main"
        let temp ← jGet mainObj "temp"
        let weather ← jGet body "weather"
        let w0 ← jIndex weather 0
        let desc ← jGet w0 "description"
        .ok (.obj [("location", name), ("temperature", temp),
                   ("unit", .str unit), ("conditions", desc)])

/-- `save_message(user_id, sender, message)`, lines 56-62.  When the
table name env var is unset the global `chat_history_table` was never
bound, so the guard's very first access raises `NameError`; when bound,
a boto3 `Table` object is truthy, so the early `return` never fires and
one item is written with a fresh clock value. -/
def save_message (env : Env) (s : S) (user sender msg : String) :
    Except (PyError × S) S :=
  match initChatHistoryTable env.cfg with
  | none => .error (.nameError "chat_history_table", s)
  | some _ =>
      let timestamp := env.clock s.saveCalls
      let item : Item := ⟨user, timestamp, sender, msg⟩
      if env.putOk s.saveCalls then
        .ok { store := s.store ++ [item], saveCalls := s.saveCalls + 1,
              trace := s.trace ++ [.putItem item] }
      else
        .error (.clientError "put_item failed", { s with saveCalls := s.saveCalls + 1 })

/-- Item comparison used for the store's descending read. -/
def tsGe (a b : Item) : Bool := b.Timestamp ≤ a.Timestamp

/-- Item comparison used by `sorted(..., key=lambda x: x['Timestamp'])`. -/
def tsLe (a b : Item) : Bool := a.Timestamp ≤ b.Timestamp

/-- DynamoDB `query` contract with `ScanIndexForward=False, Limit=limit`:
the user's items, newest-first by sort key, truncated to `limit`. -/
def dynamoQuery (store : List Item) (user : String) (limit : Nat) : List Item :=
  ((store.filter fun i => i.UserID == user).mergeSort tsGe).take limit

/-- Line 71: `sorted(response.get('Items', []), key=lambda x: x['Timestamp'])`,
applied to whatever item list the store returned. -/
def sortAscending (items : List Item) : List Item := items.mergeSort tsLe

/-- `get_recent_history(user_id, limit=5)`, lines 64-71. -/
def get_recent_history (env : Env) (s : S) (user : String) (limit : Nat) :
    Except (PyError × S) (List Item × S) :=
  match initChatHistoryTable env.cfg with
  | none => .error (.nameError "chat_history_table", s)
  | some _ =>
      let items := dynamoQuery s.store user limit
      .ok (sortAscending items,
           { s with trace := s.trace ++ [.queryHistory user limit] })

/-- `ChatRequest(BaseModel)`: both fields present. -/
structure ChatRequest where
  userId : String
  message : String
deriving DecidableEq, Repr

/-- A raw `POST /chat` body before pydantic validation. -/
structure RawChat where
  userId : Option String
  message : Option String
deriving DecidableEq, Repr

/-- Pydantic parsing of the request body: a missing field is rejected
before the handler runs (FastAPI's 422 client error). -/
def parseChatRequest (raw : RawChat) : Except PyError ChatRequest :=
  match raw.userId, raw.message with
  | some u, some m => .ok ⟨u, m⟩
  | _, _ => .error (.validationError "field required")

/-- Line 87's role mapping and history marshalling. -/
def toGeminiHistory (items : List Item) : List GeminiContent :=
  items.map fun i => ⟨if i.Sender == "USER" then "user" else "model", i.Message⟩

/-- Line 91: `response.candidates[0].content.parts[0]` — `IndexError`
when either list is empty. -/
def firstPart (r : ModelResponse) : Except PyError Part :=
  match r.candidates with
  | [] => .error .indexError
  | c :: _ =>
      match c.content.parts with
      | [] => .error .indexError
      | p :: _ => .ok p

/-- Line 96's tool-result part:
`{'name': 'get_weather', 'response': {'result': <json string>}}`. -/
def wrapToolResult (payload : JVal) : JVal :=
  .obj [("name", .str "get_weather"), ("response", .obj [("result", payload)])]

/-- Exceptions named by `except (IndexError, AttributeError)`. -/
def isCaught : PyError → Bool
  | .indexError => true
  | .attributeError _ => true
  | _ => false

/-- The body of the `try` block, lines 91-100.  Note line 94 passes only
`location=function_call.args.get('location')`; `unit` is never
forwarded, so `get_weather` runs with its default `"celsius"`. -/
def tryBody (env : Env) (s : S) : Except (PyError × S) (String × S) :=
  match firstPart env.model1 with
  | .error e => .error (e, s)
  | .ok part =>
      match part.function_call with
      | some fc =>
          let loc := fc.args.lookup "location"
          let s1 := { s with trace :=
            s.trace ++ [.weatherCall (weatherParamsFor env loc "celsius")] }
          match get_weather env loc "celsius" with
          | .error e => .error (e, s1)
          | .ok payload =>
              let wrapped := wrapToolResult payload
              let s2 := { s1 with trace := s1.trace ++ [.sendMessage2 wrapped] }
              .ok ((env.model2 wrapped).text, s2)
      | none => .ok (env.model1.text, s)

/-- Lines 90-102: the `try` block with its
`except (IndexError, AttributeError): response_text = response.text`. -/
def interpretResponse (env : Env) (s : S) : Except (PyError × S) (String × S) :=
  match tryBody env s with
  | .ok r => .ok r
  | .error (e, s1) =>
      if isCaught e then .ok (env.model1.text, s1) else .error (e, s1)

/-- The `/chat` handler body, lines 79-105, for an already-validated
`ChatRequest`. -/
def chat_with_gemini (env : Env) (s : S) (req : ChatRequest) :
    Except (PyError × S) (String × S) :=
  if req.message = "" || req.userId = "" then
    .error (.httpException 400 "userId and message cannot be empty", s)
  else
    match save_message env s req.userId "USER" req.message with
    | .error es => .error es
    | .ok s1 =>
        match get_recent_history env s1 req.userId 5 with
        | .error es => .error es
        | .ok (history, s2) =>
            let s3 := { s2 with trace :=
              s2.trace ++ [.sendMessage1 (toGeminiHistory history) req.message] }
            match interpretResponse env s3 with
            | .error es => .error es
            | .ok (response_text, s4) =>
                match save_message env s4 req.userId "BOT" response_text with
                | .error es => .error es
                | .ok s5 => .ok (response_text, s5)

/-- `POST /chat` including pydantic body validation. -/
def post_chat (env : Env) (s : S) (raw : RawChat) :
    Except (PyError × S) (String × S) :=
  match parseChatRequest raw with
  | .error e => .error (e, s)
  | .ok req => chat_with_gemini env s req

/-- `GET /history/{user_id}`, lines 107-109. -/
def get_full_history (env : Env) (s : S) (user : String) :
    Except (PyError × S) (List Item × S) :=
  get_recent_history env s user 100

/-- The `put_item` calls recorded in a trace. -/
def putsOf (tr : List Event) : List Item :=
  tr.filterMap fun e => match e with | .putItem i => some i | _ => none

/-- The outbound weather queries recorded in a trace. -/
def weatherCallsOf (tr : List Event) : List WeatherParams :=
  tr.filterMap fun e => match e with | .weatherCall p => some p | _ => none

/-- The second-completion payloads recorded in a trace. -/
def sendMessage2Of (tr : List Event) : List JVal :=
  tr.filterMap fun e => match e with | .sendMessage2 p => some p | _ => none

/-- The first-completion calls recorded in a trace. -/
def sendMessage1Of (tr : List Event) : List (List GeminiContent × String) :=
  tr.filterMap fun e => match e with | .sendMessage1 h m => some (h, m) | _ => none

/-- Fresh per-request state over a given table content. -/
def s0 (store : List Item) : S := ⟨store, 0, []⟩

/-- The error component of a handler result, if any. -/
def resultErrOf {α : Type} : Except (PyError × S) (α × S) → Option PyError
  | .error (e, _) => some e
  | .ok _ => none

/-- The returned value of a handler result, if any. -/
def resultValOf {α : Type} : Except (PyError × S) (α × S) → Option α
  | .error _ => none
  | .ok (a, _) => some a

/-- The final state of a handler run (both on success and at a raise). -/
def resultStateOf {α : Type} : Except (PyError × S) (α × S) → S
  | .error (_, s) => s
  | .ok (_, s) => s

/-! ### Characterisation of the response-interpretation stage

Whether the `try` block of lines 90-102 succeeds, which text it
produces and which events it emits depend only on the environment, not
on the state it is run in; these three functions capture that. -/

/-- Does the response-interpretation stage complete without an uncaught
exception?  (`IndexError`/`AttributeError` are caught; a `KeyError` or
`TypeError` escaping `get_weather` is not.) -/
def modelStageOk (env : Env) : Bool :=
  match firstPart env.model1 with
  | .error e => isCaught e
  | .ok part =>
      match part.function_call with
      | none => true
      | some fc =>
          match get_weather env (fc.args.lookup "location") "celsius" with
          | .ok _ => true
          | .error e => isCaught e

/-- The `response_text` the stage produces when it completes. -/
def answerOf (env : Env) : String :=
  match firstPart env.model1 with
  | .error _ => env.model1.text
  | .ok part =>
      match part.function_call with
      | none => env.model1.text
      | some fc =>
          match get_weather env (fc.args.lookup "location") "celsius" with
          | .ok payload => (env.model2 (wrapToolResult payload)).text
          | .error _ => env.model1.text

/-- The events the stage appends to the trace (the weather call is
recorded even when `get_weather` then raises). -/
def stageTrace (env : Env) : List Event :=
  match firstPart env.model1 with
  | .error _ => []
  | .ok part =>
      match part.function_call with
      | none => []
      | some fc =>
          let p := weatherParamsFor env (fc.args.lookup "location") "celsius"
          match get_weather env (fc.args.lookup "location") "celsius" with
          | .ok payload => [.weatherCall p, .sendMessage2 (wrapToolResult payload)]
          | .error _ => [.weatherCall p]

theorem interpretResponse_ok (env : Env) (s : S) (h : modelStageOk env = true) :
    interpretResponse env s =
      .ok (answerOf env, { s with trace := s.trace ++ stageTrace env }) := by
  unfold interpretResponse tryBody modelStageOk answerOf stageTrace at *
  cases hfp : firstPart env.model1 with
  | error e =>
      simp only [hfp] at h ⊢
      simp [h]
  | ok part =>
      simp only [hfp] at h ⊢
      cases hfc : part.function_call with
      | none => simp [hfc]
      | some fc =>
          simp only [hfc] at h ⊢
          cases hw : get_weather env (fc.args.lookup "location") "celsius" with
          | ok payload => simp [hw]
          | error e =>
              simp only [hw] at h ⊢
              simp [h]

/-- The uncaught exception that escapes the `try` block when the stage
fails (only `get_weather` field-extraction errors can escape). -/
def stageErr (env : Env) : PyError :=
  match firstPart env.model1 with
  | .error e => e
  | .ok part =>
      match part.function_call with
      | none => .indexError
      | some fc =>
          match get_weather env (fc.args.lookup "location") "celsius" with
          | .ok _ => .indexError
          | .error e => e

theorem interpretResponse_err (env : Env) (s : S) (h : modelStageOk env = false) :
    interpretResponse env s =
      .error (stageErr env, { s with trace := s.trace ++ stageTrace env }) := by
  unfold interpretResponse tryBody modelStageOk stageTrace stageErr at *
  cases hfp : firstPart env.model1 with
  | error e =>
      simp only [hfp] at h ⊢
      simp [h]
  | ok part =>
      simp only [hfp] at h ⊢
      cases hfc : part.function_call with
      | none => simp [hfc] at h
      | some fc =>
          simp only [hfc] at h ⊢
          cases hw : get_weather env (fc.args.lookup "location") "celsius" with
          | ok payload => simp [hw] at h
          | error e =>
              simp only [hw] at h ⊢
              simp [h]

theorem stageErr_uncaught (env : Env) (h : modelStageOk env = false) :
    isCaught (stageErr env) = false := by
  unfold modelStageOk stageErr at *
  cases hfp : firstPart env.model1 with
  | error e => simp only [hfp] at h ⊢; exact h
  | ok part =>
      simp only [hfp] at h ⊢
      cases hfc : part.function_call with
      | none => simp [hfc] at h
      | some fc =>
          simp only [hfc] at h ⊢
          cases hw : get_weather env (fc.args.lookup "location") "celsius" with
          | ok payload => simp [hw] at h
          | error e => simp only [hw] at h ⊢; exact h

/-! ### Characterisation of a full successful `/chat` turn -/

/-- The USER item written by a turn starting in state `s`. -/
def userItemOf (env : Env) (s : S) (req : ChatRequest) : Item :=
  ⟨req.userId, env.clock s.saveCalls, "USER", req.message⟩

/-- The history window loaded after the USER write. -/
def histOf (env : Env) (s : S) (req : ChatRequest) : List Item :=
  sortAscending (dynamoQuery (s.store ++ [userItemOf env s req]) req.userId 5)

/-- The BOT item written by a turn starting in state `s`. -/
def botItemOf (env : Env) (s : S) (req : ChatRequest) : Item :=
  ⟨req.userId, env.clock (s.saveCalls + 1), "BOT", answerOf env⟩

/-- The final state of a fully successful turn. -/
def finalS (env : Env) (s : S) (req : ChatRequest) : S :=
  { store := s.store ++ [userItemOf env s req] ++ [botItemOf env s req],
    saveCalls := s.saveCalls + 2,
    trace := s.trace
      ++ [.putItem (userItemOf env s req),
          .queryHistory req.userId 5,
          .sendMessage1 (toGeminiHistory (histOf env s req)) req.message]
      ++ stageTrace env
      ++ [.putItem (botItemOf env s req)] }

theorem save_message_ok (env : Env) (s : S) (user sender msg : String)
    (hconf : (initChatHistoryTable env.cfg).isSome = true)
    (hput : env.putOk s.saveCalls = true) :
    save_message env s user sender msg =
      .ok { store := s.store ++ [⟨user, env.clock s.saveCalls, sender, msg⟩],
            saveCalls := s.saveCalls + 1,
            trace := s.trace ++ [.putItem ⟨user, env.clock s.saveCalls, sender, msg⟩] } := by
  obtain ⟨tbl, htbl⟩ := Option.isSome_iff_exists.mp hconf
  unfold save_message
  rw [htbl]
  simp [hput]

theorem save_message_unbound (env : Env) (s : S) (user sender msg : String)
    (htbl : initChatHistoryTable env.cfg = none) :
    save_message env s user sender msg = .error (.nameError "chat_history_table", s) := by
  unfold save_message
  rw [htbl]

theorem save_message_putfail (env : Env) (s : S) (user sender msg : String)
    (hconf : (initChatHistoryTable env.cfg).isSome = true)
    (hput : env.putOk s.saveCalls = false) :
    save_message env s user sender msg =
      .error (.clientError "put_item failed", { s with saveCalls := s.saveCalls + 1 }) := by
  obtain ⟨tbl, htbl⟩ := Option.isSome_iff_exists.mp hconf
  unfold save_message
  rw [htbl]
  simp [hput]

theorem get_recent_history_ok (env : Env) (s : S) (user : String) (limit : Nat)
    (hconf : (initChatHistoryTable env.cfg).isSome = true) :
    get_recent_history env s user limit =
      .ok (sortAscending (dynamoQuery s.store user limit),
           { s with trace := s.trace ++ [.queryHistory user limit] }) := by
  obtain ⟨tbl, htbl⟩ := Option.isSome_iff_exists.mp hconf
  unfold get_recent_history
  rw [htbl]

theorem chat_ok_form (env : Env) (s : S) (req : ChatRequest)
    (hm : req.message ≠ "") (hu : req.userId ≠ "")
    (hconf : (initChatHistoryTable env.cfg).isSome = true)
    (hp1 : env.putOk s.saveCalls = true)
    (hp2 : env.putOk (s.saveCalls + 1) = true)
    (hmodel : modelStageOk env = true) :
    chat_with_gemini env s req = .ok (answerOf env, finalS env s req) := by
  have hval : (req.message = "" || req.userId = "") = false := by
    simp [hm, hu]
  simp only [chat_with_gemini, hval, Bool.false_eq_true, if_false,
    save_message_ok, get_recent_history_ok, interpretResponse_ok env _ hmodel,
    hconf, hp1, hp2]
  simp [finalS, userItemOf, botItemOf, histOf, List.append_assoc]

theorem chat_ok_inv (env : Env) (s : S) (req : ChatRequest) (txt : String) (s' : S)
    (h : chat_with_gemini env s req = .ok (txt, s')) :
    req.message ≠ "" ∧ req.userId ≠ "" ∧
    (initChatHistoryTable env.cfg).isSome = true ∧
    env.putOk s.saveCalls = true ∧ env.putOk (s.saveCalls + 1) = true ∧
    modelStageOk env = true ∧
    txt = answerOf env ∧ s' = finalS env s req := by
  by_cases hm : req.message = ""
  · unfold chat_with_gemini at h; simp [hm] at h
  by_cases hu : req.userId = ""
  · unfold chat_with_gemini at h; simp [hm, hu] at h
  have hval : (req.message = "" || req.userId = "") = false := by
    simp [hm, hu]
  cases htbl : initChatHistoryTable env.cfg with
  | none =>
      simp only [chat_with_gemini, hval, Bool.false_eq_true, if_false,
        save_message_unbound env s _ _ _ htbl] at h
      exact Except.noConfusion h
  | some tbl =>
  have hconf : (initChatHistoryTable env.cfg).isSome = true := by simp [htbl]
  by_cases hp1 : env.putOk s.saveCalls = true
  · by_cases hmodel : modelStageOk env = true
    · by_cases hp2 : env.putOk (s.saveCalls + 1) = true
      · have hform := chat_ok_form env s req hm hu hconf hp1 hp2 hmodel
        rw [hform] at h
        have h' := Except.ok.inj h
        refine ⟨hm, hu, by simp, hp1, hp2, hmodel,
          (Prod.mk.injEq _ _ _ _ ▸ h').1.symm, (Prod.mk.injEq _ _ _ _ ▸ h').2.symm⟩
      · have hp2' : env.putOk (s.saveCalls + 1) = false := by simpa using hp2
        simp only [chat_with_gemini, hval, Bool.false_eq_true, if_false,
          save_message_ok, save_message_putfail, get_recent_history_ok,
          interpretResponse_ok env _ hmodel, hconf, hp1, hp2'] at h
        exact Except.noConfusion h
    · have hmodel' : modelStageOk env = false := by simpa using hmodel
      simp only [chat_with_gemini, hval, Bool.false_eq_true, if_false,
        save_message_ok, get_recent_history_ok, interpretResponse_err, hconf,
        hp1, hmodel'] at h
      exact Except.noConfusion h
  · have hp1' : env.putOk s.saveCalls = false := by simpa using hp1
    simp only [chat_with_gemini, hval, Bool.false_eq_true, if_false,
      save_message_putfail, hconf, hp1'] at h
    exact Except.noConfusion h

/-- The tool-invocation request carried by the first model response, if
the parse of lines 91-92 finds one. -/
def toolRequestOf (env : Env) : Option FunctionCall :=
  match firstPart env.model1 with
  | .error _ => none
  | .ok part => part.function_call

@[simp] theorem putsOf_nil : putsOf [] = [] := rfl

@[simp] theorem putsOf_append (t u : List Event) :
    putsOf (t ++ u) = putsOf t ++ putsOf u := by
  simp [putsOf]

@[simp] theorem putsOf_cons_put (i : Item) (tr : List Event) :
    putsOf (.putItem i :: tr) = i :: putsOf tr := by
  simp [putsOf]

@[simp] theorem putsOf_cons_query (u : String) (l : Nat) (tr : List Event) :
    putsOf (.queryHistory u l :: tr) = putsOf tr := by
  simp [putsOf]

@[simp] theorem putsOf_cons_send1 (h : List GeminiContent) (m : String) (tr : List Event) :
    putsOf (.sendMessage1 h m :: tr) = putsOf tr := by
  simp [putsOf]

@[simp] theorem putsOf_cons_weather (p : WeatherParams) (tr : List Event) :
    putsOf (.weatherCall p :: tr) = putsOf tr := by
  simp [putsOf]

@[simp] theorem putsOf_cons_send2 (p : JVal) (tr : List Event) :
    putsOf (.sendMessage2 p :: tr) = putsOf tr := by
  simp [putsOf]

@[simp] theorem weatherCallsOf_nil : weatherCallsOf [] = [] := rfl

@[simp] theorem weatherCallsOf_append (t u : List Event) :
    weatherCallsOf (t ++ u) = weatherCallsOf t ++ weatherCallsOf u := by
  simp [weatherCallsOf]

@[simp] theorem weatherCallsOf_cons_put (i : Item) (tr : List Event) :
    weatherCallsOf (.putItem i :: tr) = weatherCallsOf tr := by
  simp [weatherCallsOf]

@[simp] theorem weatherCallsOf_cons_query (u : String) (l : Nat) (tr : List Event) :
    weatherCallsOf (.queryHistory u l :: tr) = weatherCallsOf tr := by
  simp [weatherCallsOf]

@[simp] theorem weatherCallsOf_cons_send1 (h : List GeminiContent) (m : String)
    (tr : List Event) :
    weatherCallsOf (.sendMessage1 h m :: tr) = weatherCallsOf tr := by
  simp [weatherCallsOf]

@[simp] theorem weatherCallsOf_cons_weather (p : WeatherParams) (tr : List Event) :
    weatherCallsOf (.weatherCall p :: tr) = p :: weatherCallsOf tr := by
  simp [weatherCallsOf]

@[simp] theorem weatherCallsOf_cons_send2 (p : JVal) (tr : List Event) :
    weatherCallsOf (.sendMessage2 p :: tr) = weatherCallsOf tr := by
  simp [weatherCallsOf]

@[simp] theorem sendMessage2Of_nil : sendMessage2Of [] = [] := rfl

@[simp] theorem sendMessage2Of_append (t u : List Event) :
    sendMessage2Of (t ++ u) = sendMessage2Of t ++ sendMessage2Of u := by
  simp [sendMessage2Of]

@[simp] theorem sendMessage2Of_cons_put (i : Item) (tr : List Event) :
    sendMessage2Of (.putItem i :: tr) = sendMessage2Of tr := by
  simp [sendMessage2Of]

@[simp] theorem sendMessage2Of_cons_query (u : String) (l : Nat) (tr : List Event) :
    sendMessage2Of (.queryHistory u l :: tr) = sendMessage2Of tr := by
  simp [sendMessage2Of]

@[simp] theorem sendMessage2Of_cons_send1 (h : List GeminiContent) (m : String)
    (tr : List Event) :
    sendMessage2Of (.sendMessage1 h m :: tr) = sendMessage2Of tr := by
  simp [sendMessage2Of]

@[simp] theorem sendMessage2Of_cons_weather (p : WeatherParams) (tr : List Event) :
    sendMessage2Of (.weatherCall p :: tr) = sendMessage2Of tr := by
  simp [sendMessage2Of]

@[simp] theorem sendMessage2Of_cons_send2 (p : JVal) (tr : List Event) :
    sendMessage2Of (.sendMessage2 p :: tr) = p :: sendMessage2Of tr := by
  simp [sendMessage2Of]

@[simp] theorem sendMessage1Of_nil : sendMessage1Of [] = [] := rfl

@[simp] theorem sendMessage1Of_append (t u : List Event) :
    sendMessage1Of (t ++ u) = sendMessage1Of t ++ sendMessage1Of u := by
  simp [sendMessage1Of]

@[simp] theorem sendMessage1Of_cons_put (i : Item) (tr : List Event) :
    sendMessage1Of (.putItem i :: tr) = sendMessage1Of tr := by
  simp [sendMessage1Of]

@[simp] theorem sendMessage1Of_cons_query (u : String) (l : Nat) (tr : List Event) :
    sendMessage1Of (.queryHistory u l :: tr) = sendMessage1Of tr := by
  simp [sendMessage1Of]

@[simp] theorem sendMessage1Of_cons_send1 (h : List GeminiContent) (m : String)
    (tr : List Event) :
    sendMessage1Of (.sendMessage1 h m :: tr) = (h, m) :: sendMessage1Of tr := by
  simp [sendMessage1Of]

@[simp] theorem sendMessage1Of_cons_weather (p : WeatherParams) (tr : List Event) :
    sendMessage1Of (.weatherCall p :: tr) = sendMessage1Of tr := by
  simp [sendMessage1Of]

@[simp] theorem sendMessage1Of_cons_send2 (p : JVal) (tr : List Event) :
    sendMessage1Of (.sendMessage2 p :: tr) = sendMessage1Of tr := by
  simp [sendMessage1Of]

theorem puts_stageTrace (env : Env) : putsOf (stageTrace env) = [] := by
  unfold stageTrace
  cases hfp : firstPart env.model1 with
  | error e => simp
  | ok part =>
      cases hfc : part.function_call with
      | none => simp [hfc]
      | some fc =>
          cases hw : get_weather env (fc.args.lookup "location") "celsius" with
          | ok p => simp [hfc, hw]
          | error e => simp [hfc, hw]

theorem send1_stageTrace (env : Env) : sendMessage1Of (stageTrace env) = [] := by
  unfold stageTrace
  cases hfp : firstPart env.model1 with
  | error e => simp
  | ok part =>
      cases hfc : part.function_call with
      | none => simp [hfc]
      | some fc =>
          cases hw : get_weather env (fc.args.lookup "location") "celsius" with
          | ok p => simp [hfc, hw]
          | error e => simp [hfc, hw]

theorem weatherCalls_stage_eq (env : Env) :
    weatherCallsOf (stageTrace env) =
      match toolRequestOf env with
      | none => []
      | some fc => [weatherParamsFor env (fc.args.lookup "location") "celsius"] := by
  unfold stageTrace toolRequestOf
  cases hfp : firstPart env.model1 with
  | error e => simp
  | ok part =>
      cases hfc : part.function_call with
      | none => simp [hfc]
      | some fc =>
          cases hw : get_weather env (fc.args.lookup "location") "celsius" with
          | ok p => simp [hfc, hw]
          | error e => simp [hfc, hw]

theorem send2_stage_eq (env : Env) :
    sendMessage2Of (stageTrace env) =
      match toolRequestOf env with
      | none => []
      | some fc =>
          match get_weather env (fc.args.lookup "location") "celsius" with
          | .ok payload => [wrapToolResult payload]
          | .error _ => [] := by
  unfold stageTrace toolRequestOf
  cases hfp : firstPart env.model1 with
  | error e => simp
  | ok part =>
      cases hfc : part.function_call with
      | none => simp [hfc]
      | some fc =>
          cases hw : get_weather env (fc.args.lookup "location") "celsius" with
          | ok p => simp [hfc, hw]
          | error e => simp [hfc, hw]

theorem answerOf_eq (env : Env) :
    answerOf env =
      match toolRequestOf env with
      | none => env.model1.text
      | some fc =>
          match get_weather env (fc.args.lookup "location") "celsius" with
          | .ok payload => (env.model2 (wrapToolResult payload)).text
          | .error _ => env.model1.text := by
  unfold answerOf toolRequestOf
  cases hfp : firstPart env.model1 with
  | error e => simp
  | ok part =>
      cases hfc : part.function_call with
      | none => simp [hfc]
      | some fc =>
          cases hw : get_weather env (fc.args.lookup "location") "celsius" with
          | ok p => simp [hfc, hw]
          | error e => simp [hfc, hw]

theorem firstPart_error (r : ModelResponse) (e : PyError)
    (h : firstPart r = .error e) : e = .indexError := by
  unfold firstPart at h
  split at h
  · exact (Except.error.inj h).symm
  · split at h
    · exact (Except.error.inj h).symm
    · exact Except.noConfusion h

theorem chat_err_inv (env : Env) (s : S) (req : ChatRequest) (e' : PyError) (s' : S)
    (h : chat_with_gemini env s req = .error (e', s')) :
    e' = .httpException 400 "userId and message cannot be empty" ∨
    e' = .nameError "chat_history_table" ∨
    e' = .clientError "put_item failed" ∨
    (modelStageOk env = false ∧ e' = stageErr env) := by
  by_cases hm : req.message = ""
  · unfold chat_with_gemini at h
    rw [if_pos (by simp [hm])] at h
    exact Or.inl (congrArg Prod.fst (Except.error.inj h)).symm
  by_cases hu : req.userId = ""
  · unfold chat_with_gemini at h
    rw [if_pos (by simp [hu])] at h
    exact Or.inl (congrArg Prod.fst (Except.error.inj h)).symm
  have hval : (req.message = "" || req.userId = "") = false := by
    simp [hm, hu]
  cases htbl : initChatHistoryTable env.cfg with
  | none =>
      simp only [chat_with_gemini, hval, Bool.false_eq_true, if_false,
        save_message_unbound env s _ _ _ htbl] at h
      exact Or.inr (Or.inl (congrArg Prod.fst (Except.error.inj h)).symm)
  | some tbl =>
  have hconf : (initChatHistoryTable env.cfg).isSome = true := by simp [htbl]
  by_cases hp1 : env.putOk s.saveCalls = true
  · by_cases hmodel : modelStageOk env = true
    · by_cases hp2 : env.putOk (s.saveCalls + 1) = true
      · rw [chat_ok_form env s req hm hu hconf hp1 hp2 hmodel] at h
        exact Except.noConfusion h
      · have hp2' : env.putOk (s.saveCalls + 1) = false := by simpa using hp2
        simp only [chat_with_gemini, hval, Bool.false_eq_true, if_false,
          save_message_ok, save_message_putfail, get_recent_history_ok,
          interpretResponse_ok env _ hmodel, hconf, hp1, hp2'] at h
        exact Or.inr (Or.inr (Or.inl (congrArg Prod.fst (Except.error.inj h)).symm))
    · have hmodel' : modelStageOk env = false := by simpa using hmodel
      simp only [chat_with_gemini, hval, Bool.false_eq_true, if_false,
        save_message_ok, get_recent_history_ok, interpretResponse_err, hconf,
        hp1, hmodel'] at h
      exact Or.inr (Or.inr (Or.inr
        ⟨hmodel', (congrArg Prod.fst (Except.error.inj h)).symm⟩))
  · have hp1' : env.putOk s.saveCalls = false := by simpa using hp1
    simp only [chat_with_gemini, hval, Bool.false_eq_true, if_false,
      save_message_putfail, hconf, hp1'] at h
    exact Or.inr (Or.inr (Or.inl (congrArg Prod.fst (Except.error.inj h)).symm))

theorem mem_weatherCalls_stage (env : Env) (p : WeatherParams)
    (hp : p ∈ weatherCallsOf (stageTrace env)) :
    ∃ part fc, firstPart env.model1 = .ok part ∧ part.function_call = some fc ∧
      p = weatherParamsFor env (fc.args.lookup "location") "celsius" := by
  unfold stageTrace at hp
  cases hfp : firstPart env.model1 with
  | error e => simp [hfp, weatherCallsOf] at hp
  | ok part =>
      simp only [hfp] at hp
      cases hfc : part.function_call with
      | none => simp [hfc, weatherCallsOf] at hp
      | some fc =>
          refine ⟨part, fc, rfl, hfc, ?_⟩
          simp only [hfc] at hp
          cases hw : get_weather env (fc.args.lookup "location") "celsius" with
          | ok payload =>
              simp [hw, weatherCallsOf, List.filterMap_cons] at hp
              exact hp
          | error e =>
              simp [hw, weatherCallsOf, List.filterMap_cons] at hp
              exact hp

theorem chat_trace_sub (env : Env) (s : S) (req : ChatRequest) (p : WeatherParams)
    (hp : p ∈ weatherCallsOf (resultStateOf (chat_with_gemini env s req)).trace) :
    p ∈ weatherCallsOf s.trace ∨ p ∈ weatherCallsOf (stageTrace env) := by
  by_cases hm : req.message = ""
  · unfold chat_with_gemini at hp
    rw [if_pos (by simp [hm])] at hp
    exact Or.inl hp
  by_cases hu : req.userId = ""
  · unfold chat_with_gemini at hp
    rw [if_pos (by simp [hu])] at hp
    exact Or.inl hp
  have hval : (req.message = "" || req.userId = "") = false := by
    simp [hm, hu]
  cases htbl : initChatHistoryTable env.cfg with
  | none =>
      simp only [chat_with_gemini, hval, Bool.false_eq_true, if_false,
        save_message_unbound env s _ _ _ htbl, resultStateOf] at hp
      exact Or.inl hp
  | some tbl =>
  have hconf : (initChatHistoryTable env.cfg).isSome = true := by simp [htbl]
  by_cases hp1 : env.putOk s.saveCalls = true
  · by_cases hmodel : modelStageOk env = true
    · by_cases hp2 : env.putOk (s.saveCalls + 1) = true
      · rw [chat_ok_form env s req hm hu hconf hp1 hp2 hmodel] at hp
        simp only [resultStateOf, finalS] at hp
        simp [weatherCallsOf, List.filterMap_append] at hp ⊢
        tauto
      · have hp2' : env.putOk (s.saveCalls + 1) = false := by simpa using hp2
        simp only [chat_with_gemini, hval, Bool.false_eq_true, if_false,
          save_message_ok, save_message_putfail, get_recent_history_ok,
          interpretResponse_ok env _ hmodel, hconf, hp1, hp2',
          resultStateOf] at hp
        simp [weatherCallsOf, List.filterMap_append] at hp ⊢
        tauto
    · have hmodel' : modelStageOk env = false := by simpa using hmodel
      simp only [chat_with_gemini, hval, Bool.false_eq_true, if_false,
        save_message_ok, get_recent_history_ok, interpretResponse_err, hconf,
        hp1, hmodel', resultStateOf] at hp
      simp [weatherCallsOf, List.filterMap_append] at hp ⊢
      tauto
  · have hp1' : env.putOk s.saveCalls = false := by simpa using hp1
    simp only [chat_with_gemini, hval, Bool.false_eq_true, if_false,
      save_message_putfail, hconf, hp1', resultStateOf] at hp
    exact Or.inl hp

/-! ### Concrete scenario environments used by counterexamples and
witnesses -/

/-- All three environment variables set. -/
def cfgOn : Config := ⟨some "gkey", some "wkey", some "tbl"⟩

/-- No environment variable set (local / degraded deployment). -/
def cfgOff : Config := ⟨none, none, none⟩

/-- A model response that is plain text (one part, no function call). -/
def plainResp (t : String) : ModelResponse := ⟨[⟨⟨[⟨none⟩]⟩⟩], t⟩

/-- A model response requesting a tool invocation. -/
def toolResp (fc : FunctionCall) (t : String) : ModelResponse := ⟨[⟨⟨[⟨some fc⟩]⟩⟩], t⟩

/-- A model response with no candidates (unparseable shape). -/
def emptyResp (t : String) : ModelResponse := ⟨[], t⟩

/-- A well-formed OpenWeather body for Paris. -/
def goodBody : JVal :=
  .obj [("name", .str "Paris"), ("main", .obj [("temp", .num 18)]),
        ("weather", .arr [.obj [("description", .str "clear sky")]])]

/-- Baseline healthy environment: store configured, provider returns a
well-formed body, every put succeeds, the model answers plain text. -/
def baseEnv : Env :=
  { cfg := cfgOn, provider := fun _ => .respond 200 goodBody,
    clock := fun n => n, putOk := fun _ => true,
    model1 := plainResp "hello", model2 := fun _ => plainResp "final" }

/-- Environment with no env vars set: the deployment the spec calls
"degraded mode". -/
def envC1 : Env := { baseEnv with cfg := cfgOff }

/-- C1: the spec claims that with no table identifier configured,
`append` is a silent no-op and `recent` returns `[]`, so `POST /chat`
still answers and `GET /history/u1` returns an empty array.  In the code
the global `chat_history_table` is only assigned inside
`if CHAT_HISTORY_TABLE_NAME:` (lines 27-29), so when the variable is
unset the name is unbound and the guard `if not chat_history_table:`
itself raises `NameError` — both endpoints fail instead of degrading. -/
theorem C1_unconfigured_store_raises :
    post_chat envC1 (s0 []) ⟨some "u1", some "hi"⟩ =
      .error (.nameError "chat_history_table", s0 []) ∧
    get_full_history envC1 (s0 []) "u1" =
      .error (.nameError "chat_history_table", s0 []) ∧
    resultValOf (post_chat envC1 (s0 []) ⟨some "u1", some "hi"⟩) = none :=
  ⟨rfl, rfl, rfl⟩

/-- Healthy environment whose second `put_item` (the BOT persist) fails. -/
def envC2 : Env := { baseEnv with putOk := fun n => n == 0 }

/-- C2 (counterexample): the model stage succeeds and computes the
answer "hello", the BOT-side `put_item` then raises, and `POST /chat`
returns the persistence error instead of `{response: "hello"}` — there
is no `try/except` around line 104's `save_message`. -/
theorem C2_counterexample :
    modelStageOk envC2 = true ∧
    answerOf envC2 = "hello" ∧
    resultValOf (chat_with_gemini envC2 (s0 []) ⟨"u1", "hi"⟩) = none ∧
    resultErrOf (chat_with_gemini envC2 (s0 []) ⟨"u1", "hi"⟩) =
      some (.clientError "put_item failed") :=
  ⟨rfl, rfl, rfl, rfl⟩

/-- C2 (amended): when the model stage succeeds but the BOT-persist
write fails, the exception propagates to the caller as a server error
and the computed answer text is not returned; the in-memory response
reaches the caller only when the final persistence write succeeds. -/
theorem C2_bot_persist_failure_propagates (env : Env) (s : S) (req : ChatRequest)
    (hm : req.message ≠ "") (hu : req.userId ≠ "")
    (hconf : (initChatHistoryTable env.cfg).isSome = true)
    (hp1 : env.putOk s.saveCalls = true)
    (hp2 : env.putOk (s.saveCalls + 1) = false)
    (hmodel : modelStageOk env = true) :
    resultValOf (chat_with_gemini env s req) = none ∧
    resultErrOf (chat_with_gemini env s req) =
      some (.clientError "put_item failed") := by
  have hval : (req.message = "" || req.userId = "") = false := by
    simp [hm, hu]
  simp only [chat_with_gemini, hval, Bool.false_eq_true, if_false,
    save_message_ok, save_message_putfail, get_recent_history_ok,
    interpretResponse_ok env _ hmodel, hconf, hp1, hp2]
  exact ⟨rfl, rfl⟩

theorem C2_bot_persist_failure_propagates_witness :
    resultValOf (chat_with_gemini envC2 (s0 []) ⟨"u1", "hi"⟩) = none ∧
    resultErrOf (chat_with_gemini envC2 (s0 []) ⟨"u1", "hi"⟩) =
      some (.clientError "put_item failed") :=
  C2_bot_persist_failure_propagates envC2 (s0 []) ⟨"u1", "hi"⟩
    (by decide) (by decide) rfl rfl rfl rfl

/-- The tool request the model emits in the C3 scenario: it asks for
Paris in fahrenheit. -/
def fcParisF : FunctionCall :=
  ⟨"get_weather", [("location", "Paris"), ("unit", "fahrenheit")]⟩

def envC3 : Env := { baseEnv with model1 := toolResp fcParisF "raw1" }

/-- C3 (counterexample): the model requests `get_weather(location="Paris",
unit="fahrenheit")`, but line 94 forwards only `location`, so
`get_weather` runs with its default unit and the outbound query carries
`units=metric`, not the claimed unit-mapped "imperial". -/
theorem C3_counterexample :
    toolRequestOf envC3 = some fcParisF ∧
    fcParisF.args.lookup "unit" = some "fahrenheit" ∧
    weatherCallsOf (resultStateOf (chat_with_gemini envC3 (s0 []) ⟨"u1", "w"⟩)).trace =
      [⟨some "Paris", some "wkey", "metric"⟩] ∧
    ((⟨some "Paris", some "wkey", "metric"⟩ : WeatherParams).units == "imperial") = false :=
  ⟨rfl, rfl, rfl, by decide⟩

/-- C3 (amended): the orchestrator forwards only the `location` argument
of the model's tool request; `unit` is never passed, so every outbound
weather query issued during a chat turn uses the default-celsius mapping
`units=metric`, whatever unit the model requested. -/
theorem C3_only_location_forwarded (env : Env) (store : List Item) (req : ChatRequest) :
    ∀ p ∈ weatherCallsOf (resultStateOf (chat_with_gemini env (s0 store) req)).trace,
      p.units = "metric" ∧
      ∃ part fc, firstPart env.model1 = .ok part ∧ part.function_call = some fc ∧
        p.q = fc.args.lookup "location" := by
  intro p hp
  rcases chat_trace_sub env (s0 store) req p hp with h | h
  · simp [s0, weatherCallsOf] at h
  · obtain ⟨part, fc, h1, h2, h3⟩ := mem_weatherCalls_stage env p h
    subst h3
    exact ⟨rfl, part, fc, h1, h2, rfl⟩

theorem C3_only_location_forwarded_witness :
    ((⟨some "Paris", some "wkey", "metric"⟩ : WeatherParams).units = "metric" ∧
      ∃ part fc, firstPart envC3.model1 = .ok part ∧ part.function_call = some fc ∧
        (⟨some "Paris", some "wkey", "metric"⟩ : WeatherParams).q =
          fc.args.lookup "location") :=
  C3_only_location_forwarded envC3 [] ⟨"u1", "w"⟩
    ⟨some "Paris", some "wkey", "metric"⟩ (by decide)

/-- A tool request carrying only a location argument. -/
def fcParis : FunctionCall := ⟨"get_weather", [("location", "Paris")]⟩

/-- Provider answers 200 with a JSON object missing every expected
field — a malformed body in the spec's sense. -/
def envC4 : Env :=
  { baseEnv with model1 := toolResp fcParis "raw1",
                 provider := fun _ => .respond 200 (.obj []) }

/-- C4 (counterexample): for the malformed-body failure mode in which
the provider returns 200 with valid JSON lacking the expected fields,
`data["name"]` raises `KeyError` inside `get_weather`; the claim that
`get_weather` "never raises" and that the turn "still completes with
some bot response text" both fail — `KeyError` is not in the handler's
`except (IndexError, AttributeError)`, so the turn aborts. -/
theorem C4_counterexample :
    get_weather envC4 (some "Paris") "celsius" = .error (.keyError "name") ∧
    resultErrOf (chat_with_gemini envC4 (s0 []) ⟨"u1", "w"⟩) = some (.keyError "name") ∧
    resultValOf (chat_with_gemini envC4 (s0 []) ⟨"u1", "w"⟩) = none :=
  ⟨rfl, rfl, rfl⟩

/-- C4 (amended): network errors, 4xx/5xx statuses and non-JSON bodies
are converted by `get_weather` into an `{error: ...}` payload and never
raise; but a 2xx response whose JSON body lacks the expected fields
raises (`KeyError "name"` for an empty object), and that exception
escapes `get_weather`. -/
theorem C4_soft_failure_except_field_extraction (env : Env) (loc : Option String)
    (u : String) :
    (∀ msg, env.provider (weatherParamsFor env loc u) = .netError msg →
      get_weather env loc u = .ok (jErr ("Failed to get weather data: " ++ msg))) ∧
    (∀ st m, env.provider (weatherParamsFor env loc u) = .badJson st m →
      ∃ m2, get_weather env loc u = .ok (jErr m2)) ∧
    (∀ st body, env.provider (weatherParamsFor env loc u) = .respond st body →
      isErrStatus st = true →
      get_weather env loc u =
        .ok (jErr ("Failed to get weather data: HTTP " ++ toString st))) ∧
    (∀ st, env.provider (weatherParamsFor env loc u) = .respond st (.obj []) →
      isErrStatus st = false →
      get_weather env loc u = .error (.keyError "name")) := by
  refine ⟨?_, ?_, ?_, ?_⟩
  · intro msg h
    simp [get_weather, h]
  · intro st m h
    by_cases hs : isErrStatus st = true
    · exact ⟨"Failed to get weather data: HTTP " ++ toString st,
        by simp [get_weather, h, hs]⟩
    · exact ⟨"Failed to get weather data: " ++ m,
        by simp [get_weather, h, hs]⟩
  · intro st body h hs
    simp [get_weather, h, hs]
  · intro st h hs
    simp only [get_weather, h, hs, Bool.false_eq_true, if_false]
    rfl

/-- Provider that always fails with a simulated network error. -/
def envC4n : Env := { baseEnv with provider := fun _ => .netError "boom" }

theorem C4_soft_failure_except_field_extraction_witness :
    get_weather envC4n (some "Paris") "celsius" =
      .ok (jErr ("Failed to get weather data: " ++ "boom")) :=
  (C4_soft_failure_except_field_extraction envC4n (some "Paris") "celsius").1 "boom" rfl

/-- The model answers with no candidates at all: a response that parses
into neither the plain-text nor the tool-invocation shape. -/
def envC5 : Env := { baseEnv with model1 := emptyResp "rawtext" }

/-- C5: when `response.candidates[0].content.parts[0]` fails (the
response fits neither shape), the `except (IndexError, AttributeError)`
catches it locally and the raw `response.text` becomes the answer; the
parse failure never reaches the HTTP caller — any error such a turn can
return stems from validation or the store, never from response
parsing. -/
theorem C5_parse_failure_degrades_to_raw_text (env : Env) (e : PyError)
    (hparse : firstPart env.model1 = .error e) :
    (∀ s : S, interpretResponse env s = .ok (env.model1.text, s)) ∧
    (∀ s req txt s', chat_with_gemini env s req = .ok (txt, s') →
      txt = env.model1.text) ∧
    (∀ s req e' s', chat_with_gemini env s req = .error (e', s') →
      e' = .httpException 400 "userId and message cannot be empty" ∨
      e' = .nameError "chat_history_table" ∨
      e' = .clientError "put_item failed") := by
  have hidx : e = .indexError := firstPart_error env.model1 e hparse
  subst hidx
  have hmodel : modelStageOk env = true := by
    unfold modelStageOk
    rw [hparse]
    rfl
  refine ⟨?_, ?_, ?_⟩
  · intro s
    rw [interpretResponse_ok env s hmodel]
    have hans : answerOf env = env.model1.text := by
      unfold answerOf
      rw [hparse]
    have htr : stageTrace env = [] := by
      unfold stageTrace
      rw [hparse]
    rw [hans, htr]
    simp
  · intro s req txt s' h
    obtain ⟨_, _, _, _, _, _, htxt, _⟩ := chat_ok_inv env s req txt s' h
    rw [htxt]
    unfold answerOf
    rw [hparse]
  · intro s req e' s' h
    rcases chat_err_inv env s req e' s' h with h1 | h1 | h1 | ⟨h1, _⟩
    · exact Or.inl h1
    · exact Or.inr (Or.inl h1)
    · exact Or.inr (Or.inr h1)
    · rw [hmodel] at h1
      exact Bool.noConfusion h1

theorem C5_parse_failure_degrades_to_raw_text_witness :
    interpretResponse envC5 (s0 []) = .ok (envC5.model1.text, s0 []) :=
  (C5_parse_failure_degrades_to_raw_text envC5 .indexError rfl).1 (s0 [])

/-- A well-formed body except that the `weather` array is empty, so
`data["weather"][0]` raises `IndexError` inside `get_weather`. -/
def bodyNoWeather : JVal :=
  .obj [("name", .str "P"), ("main", .obj [("temp", .num 1)]),
        ("weather", .arr [])]

def envC6 : Env :=
  { baseEnv with model1 := toolResp fcParis "RAW1",
                 provider := fun _ => .respond 200 bodyNoWeather,
                 model2 := fun _ => plainResp "SECOND" }

/-- C6 (counterexample): the first response is a tool request and the
adapter is invoked (exactly once), but because `get_weather` raises a
caught `IndexError` (empty `weather` array in a 200 body), no second
model call is made and the final answer is the FIRST response's raw
text "RAW1", not the text of a second model call (which would be
"SECOND") — falsifying "the final answer is then the text of a second
model call carrying the weather result (or weather error payload)". -/
theorem C6_counterexample :
    toolRequestOf envC6 = some fcParis ∧
    weatherCallsOf (resultStateOf (chat_with_gemini envC6 (s0 []) ⟨"u1", "w"⟩)).trace =
      [⟨some "Paris", some "wkey", "metric"⟩] ∧
    sendMessage2Of (resultStateOf (chat_with_gemini envC6 (s0 []) ⟨"u1", "w"⟩)).trace = [] ∧
    resultValOf (chat_with_gemini envC6 (s0 []) ⟨"u1", "w"⟩) = some "RAW1" ∧
    (envC6.model2 (jErr "x")).text = "SECOND" ∧
    (("RAW1" : String) == "SECOND") = false :=
  ⟨rfl, rfl, rfl, rfl, rfl, by decide⟩

/-- C6 (amended): per successful turn at most one tool round-trip
occurs, and the adapter is invoked exactly once iff the first model
response is a tool-invocation request (even if the second response
would request another, it is never inspected).  When `get_weather`
returns a payload, the answer is the second call's text carrying that
payload; when `get_weather` raises (a caught `IndexError`), the answer
falls back to the first response's raw text and no second call is
made. -/
theorem C6_single_tool_roundtrip (env : Env) (store : List Item) (req : ChatRequest)
    (txt : String) (s' : S)
    (h : chat_with_gemini env (s0 store) req = .ok (txt, s')) :
    (weatherCallsOf s'.trace).length ≤ 1 ∧
    ((weatherCallsOf s'.trace).length = 1 ↔ (toolRequestOf env).isSome = true) ∧
    (∀ fc, toolRequestOf env = some fc →
      (∀ payload, get_weather env (fc.args.lookup "location") "celsius" = .ok payload →
        txt = (env.model2 (wrapToolResult payload)).text ∧
        sendMessage2Of s'.trace = [wrapToolResult payload]) ∧
      (∀ e, get_weather env (fc.args.lookup "location") "celsius" = .error e →
        txt = env.model1.text ∧ sendMessage2Of s'.trace = [])) := by
  obtain ⟨_, _, _, _, _, hmodel, htxt, hs'⟩ := chat_ok_inv env (s0 store) req txt s' h
  subst hs'
  subst htxt
  have hwc : weatherCallsOf (finalS env (s0 store) req).trace =
      weatherCallsOf (stageTrace env) := by
    simp [finalS, s0]
  have hs2 : sendMessage2Of (finalS env (s0 store) req).trace =
      sendMessage2Of (stageTrace env) := by
    simp [finalS, s0]
  rw [hwc, hs2]
  cases htr : toolRequestOf env with
  | none =>
      refine ⟨?_, ?_, ?_⟩
      · simp [weatherCalls_stage_eq, htr]
      · simp [weatherCalls_stage_eq, htr]
      · intro fc hfc
        exact Option.noConfusion hfc
  | some fc0 =>
      refine ⟨?_, ?_, ?_⟩
      · simp [weatherCalls_stage_eq, htr]
      · simp [weatherCalls_stage_eq, htr]
      · intro fc hfc
        have hfc0 : fc = fc0 := (Option.some.inj hfc).symm
        subst hfc0
        cases hw : get_weather env (fc.args.lookup "location") "celsius" with
        | ok payload =>
            constructor
            · intro payload' hp'
              have hpp : payload' = payload := (Except.ok.inj hp').symm
              subst hpp
              constructor
              · simp [answerOf_eq, htr, hw]
              · simp [send2_stage_eq, htr, hw]
            · intro e he
              exact Except.noConfusion he
        | error e0 =>
            constructor
            · intro payload hp'
              exact Except.noConfusion hp'
            · intro e he
              constructor
              · simp [answerOf_eq, htr, hw]
              · simp [send2_stage_eq, htr, hw]

/-- Healthy tool-request run used as the C6 witness. -/
def envC6w : Env := { baseEnv with model1 := toolResp fcParis "raw1" }

theorem C6_single_tool_roundtrip_witness :
    (weatherCallsOf (finalS envC6w (s0 []) ⟨"u1", "w"⟩).trace).length ≤ 1 :=
  (C6_single_tool_roundtrip envC6w [] ⟨"u1", "w"⟩ "final"
    (finalS envC6w (s0 []) ⟨"u1", "w"⟩) rfl).1

/-- C7: a successful turn appends exactly two items — the USER item
first, then the BOT item — stamped with the first and second clock
readings of the request; provided the wall clock strictly advances
between the two `put_item` calls, the BOT timestamp is strictly greater
than the USER timestamp. -/
theorem C7_two_appends_user_then_bot (env : Env) (store : List Item) (req : ChatRequest)
    (txt : String) (s' : S)
    (hclock : env.clock 0 < env.clock 1)
    (h : chat_with_gemini env (s0 store) req = .ok (txt, s')) :
    putsOf s'.trace =
      [⟨req.userId, env.clock 0, "USER", req.message⟩,
       ⟨req.userId, env.clock 1, "BOT", txt⟩] ∧
    (⟨req.userId, env.clock 0, "USER", req.message⟩ : Item).Timestamp <
      (⟨req.userId, env.clock 1, "BOT", txt⟩ : Item).Timestamp := by
  obtain ⟨_, _, _, _, _, _, htxt, hs'⟩ := chat_ok_inv env (s0 store) req txt s' h
  subst hs'
  subst htxt
  refine ⟨?_, hclock⟩
  simp [finalS, s0, puts_stageTrace, userItemOf, botItemOf]

theorem C7_two_appends_user_then_bot_witness :
    putsOf (finalS baseEnv (s0 []) ⟨"u1", "hi"⟩).trace =
      [⟨"u1", baseEnv.clock 0, "USER", "hi"⟩,
       ⟨"u1", baseEnv.clock 1, "BOT", "hello"⟩] ∧
    (⟨"u1", baseEnv.clock 0, "USER", "hi"⟩ : Item).Timestamp <
      (⟨"u1", baseEnv.clock 1, "BOT", "hello"⟩ : Item).Timestamp :=
  C7_two_appends_user_then_bot baseEnv [] ⟨"u1", "hi"⟩ "hello"
    (finalS baseEnv (s0 []) ⟨"u1", "hi"⟩) (by decide) rfl

/-- "400-equivalent" client errors: the handler's explicit
`HTTPException(400, ...)` and FastAPI's request-validation rejection. -/
def isClientError : PyError → Bool
  | .httpException st _ => st == 400
  | .validationError _ => true
  | _ => false

/-- C9: a `POST /chat` whose `userId` or `message` is missing (pydantic
rejects before the handler runs) or empty (line 80's guard) fails with a
400-equivalent client error, and the state — store and trace — is
returned exactly as it was: no store write happens. -/
theorem C9_invalid_request_rejected_without_writes (env : Env) (s : S) (raw : RawChat)
    (hbad : raw.userId = none ∨ raw.message = none ∨
            raw.userId = some "" ∨ raw.message = some "") :
    ∃ e, post_chat env s raw = .error (e, s) ∧ isClientError e = true := by
  rcases raw with ⟨ou, om⟩
  rcases ou with _ | u
  · rcases om with _ | m
    · exact ⟨.validationError "field required", rfl, rfl⟩
    · exact ⟨.validationError "field required", rfl, rfl⟩
  · rcases om with _ | m
    · exact ⟨.validationError "field required", rfl, rfl⟩
    · have hem : u = "" ∨ m = "" := by
        rcases hbad with h | h | h | h
        · exact Option.noConfusion h
        · exact Option.noConfusion h
        · exact Or.inl (Option.some.inj h)
        · exact Or.inr (Option.some.inj h)
      refine ⟨.httpException 400 "userId and message cannot be empty", ?_, rfl⟩
      show chat_with_gemini env s ⟨u, m⟩ =
        .error (.httpException 400 "userId and message cannot be empty", s)
      unfold chat_with_gemini
      rw [if_pos (show ((ChatRequest.mk u m).message = "" ||
        (ChatRequest.mk u m).userId = "") = true by
          rcases hem with h | h <;> simp [h])]

theorem C9_invalid_request_rejected_without_writes_witness :
    ∃ e, post_chat baseEnv (s0 []) ⟨some "", some "hi"⟩ = .error (e, s0 []) ∧
      isClientError e = true :=
  C9_invalid_request_rejected_without_writes baseEnv (s0 []) ⟨some "", some "hi"⟩
    (Or.inr (Or.inr (Or.inl rfl)))

theorem tsLe_trans : ∀ a b c : Item, tsLe a b → tsLe b c → tsLe a c := by
  intro a b c hab hbc
  simp [tsLe] at *
  omega

theorem tsLe_total : ∀ a b : Item, tsLe a b || tsLe b a := by
  intro a b
  simp [tsLe]
  omega

theorem tsGe_trans : ∀ a b c : Item, tsGe a b → tsGe b c → tsGe a c := by
  intro a b c hab hbc
  simp [tsGe] at *
  omega

theorem tsGe_total : ∀ a b : Item, tsGe a b || tsGe b a := by
  intro a b
  simp [tsGe]
  omega

theorem sortAscending_sorted (items : List Item) :
    (sortAscending items).Pairwise (fun a b => a.Timestamp ≤ b.Timestamp) := by
  have h := @List.sorted_mergeSort Item tsLe tsLe_trans tsLe_total items
  exact h.imp (fun hab => by simpa [tsLe] using hab)

/-- C8: whatever items the store hands back (in any order), line 71's
`sorted(...)` re-sorts them chronologically ascending, and the result
never exceeds the requested limit; `GET /history/{user_id}` thus returns
at most the 100 most recent items for the user in chronological order
(every stored item it omits is no newer than every item it returns). -/
theorem C8_recent_sorted_and_bounded :
    (∀ (items : List Item) (limit : Nat), items.length ≤ limit →
      (sortAscending items).Pairwise (fun a b => a.Timestamp ≤ b.Timestamp) ∧
      (sortAscending items).length ≤ limit) ∧
    (∀ (env : Env) (s : S) (user : String) (l : List Item) (s2 : S),
      get_full_history env s user = .ok (l, s2) →
      l.Pairwise (fun a b => a.Timestamp ≤ b.Timestamp) ∧ l.length ≤ 100 ∧
      (∀ x ∈ s.store.filter (fun i => i.UserID == user), x ∉ l →
        ∀ y ∈ l, x.Timestamp ≤ y.Timestamp)) := by
  constructor
  · intro items limit hlen
    refine ⟨sortAscending_sorted items, ?_⟩
    simpa [sortAscending] using hlen
  · intro env s user l s2 h
    cases htbl : initChatHistoryTable env.cfg with
    | none =>
        unfold get_full_history get_recent_history at h
        rw [htbl] at h
        exact Except.noConfusion h
    | some tbl =>
        have hconf : (initChatHistoryTable env.cfg).isSome = true := by simp [htbl]
        unfold get_full_history at h
        rw [get_recent_history_ok env s user 100 hconf] at h
        have h' := Except.ok.inj h
        have hl : l = sortAscending (dynamoQuery s.store user 100) :=
          (congrArg Prod.fst h').symm
        subst hl
        refine ⟨sortAscending_sorted _, ?_, ?_⟩
        · have h1 : (sortAscending (dynamoQuery s.store user 100)).length =
              (dynamoQuery s.store user 100).length := by
            simp [sortAscending]
          rw [h1]
          unfold dynamoQuery
          simp [List.length_take]
        · intro x hx hxl y hy
          have hytk : y ∈ (((s.store.filter (fun i => i.UserID == user)).mergeSort
              tsGe).take 100) := by
            have : y ∈ sortAscending (dynamoQuery s.store user 100) := hy
            unfold sortAscending dynamoQuery at this
            exact List.mem_mergeSort.mp this
          have hxds : x ∈ (s.store.filter (fun i => i.UserID == user)).mergeSort tsGe :=
            List.mem_mergeSort.mpr hx
          have hxtk : x ∉ (((s.store.filter (fun i => i.UserID == user)).mergeSort
              tsGe).take 100) := by
            intro hc
            apply hxl
            unfold sortAscending dynamoQuery
            exact List.mem_mergeSort.mpr hc
          have hxdrop : x ∈ (((s.store.filter (fun i => i.UserID == user)).mergeSort
              tsGe).drop 100) := by
            have hsplit := List.take_append_drop 100
              ((s.store.filter (fun i => i.UserID == user)).mergeSort tsGe)
            rw [← hsplit] at hxds
            rcases List.mem_append.mp hxds with hc | hc
            · exact absurd hc hxtk
            · exact hc
          have hp : ((s.store.filter (fun i => i.UserID == user)).mergeSort
              tsGe).Pairwise (fun a b => tsGe a b) :=
            @List.sorted_mergeSort Item tsGe tsGe_trans tsGe_total _
          rw [← List.take_append_drop 100
            ((s.store.filter (fun i => i.UserID == user)).mergeSort tsGe)] at hp
          obtain ⟨_, _, hcross⟩ := List.pairwise_append.mp hp
          have hc := hcross y hytk x hxdrop
          simpa [tsGe] using hc

/-- Two items delivered by the store newest-first. -/
def itemsW : List Item := [⟨"u", 5, "USER", "a"⟩, ⟨"u", 3, "BOT", "b"⟩]

theorem C8_recent_sorted_and_bounded_witness :
    (sortAscending itemsW).Pairwise (fun a b => a.Timestamp ≤ b.Timestamp) ∧
    (sortAscending itemsW).length ≤ 2 :=
  C8_recent_sorted_and_bounded.1 itemsW 2 (by decide)

theorem head?_desc_strictmax (l : List Item) (u : Item)
    (hp : l.Pairwise (fun a b => tsGe a b))
    (hm : u ∈ l)
    (hmax : ∀ x ∈ l, x ≠ u → x.Timestamp < u.Timestamp) :
    l.head? = some u := by
  cases l with
  | nil => cases hm
  | cons h t =>
      by_cases hh : h = u
      · simp [hh]
      · exfalso
        have hut : u ∈ t := by
          rcases List.mem_cons.mp hm with h1 | h1
          · exact absurd h1.symm hh
          · exact h1
        have h1 := (List.pairwise_cons.mp hp).1 u hut
        have h2 := hmax h (List.mem_cons_self h t) hh
        simp [tsGe] at h1
        omega

theorem getLast?_asc_strictmax (l : List Item) (u : Item)
    (hp : l.Pairwise (fun a b => tsLe a b))
    (hm : u ∈ l)
    (hmax : ∀ x ∈ l, x ≠ u → x.Timestamp < u.Timestamp) :
    l.getLast? = some u := by
  induction l with
  | nil => cases hm
  | cons h t ih =>
      cases t with
      | nil =>
          have hhu : u = h := by simpa using hm
          simp [hhu]
      | cons h2 t2 =>
          rw [List.getLast?_cons_cons]
          have hp' := (List.pairwise_cons.mp hp).2
          have hmax' : ∀ x ∈ h2 :: t2, x ≠ u → x.Timestamp < u.Timestamp :=
            fun x hx hne => hmax x (List.mem_cons_of_mem h hx) hne
          have hm' : u ∈ h2 :: t2 := by
            rcases List.mem_cons.mp hm with h1 | h1
            · by_contra hnot
              have hh2 : h2 ≠ u := fun he => hnot (he ▸ List.mem_cons_self h2 t2)
              have hlt := hmax h2
                (List.mem_cons_of_mem h (List.mem_cons_self h2 t2)) hh2
              have hle := (List.pairwise_cons.mp hp).1 h2 (List.mem_cons_self h2 t2)
              simp [tsLe] at hle
              subst h1
              omega
            · exact h1
          exact ih hp' hm' hmax'

/-- Re-sorting ascending the first `n` of a descending sort puts the
strict maximum (which survives the truncation) last. -/
theorem sortAsc_take_getLast (fl : List Item) (u : Item) (n : Nat) (hn : 0 < n)
    (hmem : u ∈ fl)
    (hmax : ∀ x ∈ fl, x ≠ u → x.Timestamp < u.Timestamp) :
    (((fl.mergeSort tsGe).take n).mergeSort tsLe).getLast? = some u := by
  have hpds := @List.sorted_mergeSort Item tsGe tsGe_trans tsGe_total fl
  have humem : u ∈ fl.mergeSort tsGe := List.mem_mergeSort.mpr hmem
  have hmaxds : ∀ x ∈ fl.mergeSort tsGe, x ≠ u → x.Timestamp < u.Timestamp :=
    fun x hx => hmax x (List.mem_mergeSort.mp hx)
  have hhead := head?_desc_strictmax _ u hpds humem hmaxds
  obtain ⟨rest, hrest⟩ : ∃ rest, fl.mergeSort tsGe = u :: rest := by
    cases hd : fl.mergeSort tsGe with
    | nil => rw [hd] at hhead; exact Option.noConfusion hhead
    | cons a t =>
        rw [hd] at hhead
        simp only [List.head?_cons] at hhead
        exact ⟨t, by rw [Option.some.inj hhead]⟩
  obtain ⟨k, hk⟩ : ∃ k, n = k + 1 := ⟨n - 1, by omega⟩
  subst hk
  rw [hrest, List.take_succ_cons]
  apply getLast?_asc_strictmax
  · exact @List.sorted_mergeSort Item tsLe tsLe_trans tsLe_total _
  · exact List.mem_mergeSort.mpr (List.mem_cons_self _ _)
  · intro x hx hne
    have hx' : x ∈ u :: rest.take k := List.mem_mergeSort.mp hx
    have hxds : x ∈ u :: rest := by
      rcases List.mem_cons.mp hx' with h1 | h1
      · exact h1 ▸ List.mem_cons_self _ _
      · exact List.mem_cons_of_mem _ (List.take_subset _ _ h1)
    rw [← hrest] at hxds
    exact hmaxds x hxds hne

/-- C10 (implicit behaviour): with the store configured, the USER item
persisted at the start of the turn carries the largest timestamp of the
user's items (the clock is ahead of everything already stored), so the
5-item window loaded right afterwards contains it as its newest (last)
element; the first completion call therefore receives the current user
message both inside the supplied history (as its last entry) and again
as the new message argument. -/
theorem C10_current_user_message_in_window (env : Env) (store : List Item)
    (req : ChatRequest) (txt : String) (s' : S)
    (hfresh : ∀ i ∈ store, i.UserID = req.userId → i.Timestamp < env.clock 0)
    (h : chat_with_gemini env (s0 store) req = .ok (txt, s')) :
    sendMessage1Of s'.trace =
      [(toGeminiHistory (histOf env (s0 store) req), req.message)] ∧
    (histOf env (s0 store) req).getLast? =
      some ⟨req.userId, env.clock 0, "USER", req.message⟩ ∧
    (toGeminiHistory (histOf env (s0 store) req)).getLast? =
      some ⟨"user", req.message⟩ := by
  obtain ⟨_, _, _, _, _, _, _, hs'⟩ := chat_ok_inv env (s0 store) req txt s' h
  subst hs'
  have hlast : (histOf env (s0 store) req).getLast? =
      some ⟨req.userId, env.clock 0, "USER", req.message⟩ := by
    have hmem : (⟨req.userId, env.clock 0, "USER", req.message⟩ : Item) ∈
        ((store ++ ([⟨req.userId, env.clock 0, "USER", req.message⟩] : List Item)).filter
          (fun i => i.UserID == req.userId)) := by
      simp
    have hmax : ∀ x ∈ ((store ++ ([⟨req.userId, env.clock 0, "USER", req.message⟩] : List Item)).filter
        (fun i => i.UserID == req.userId)),
        x ≠ (⟨req.userId, env.clock 0, "USER", req.message⟩ : Item) →
        x.Timestamp < (⟨req.userId, env.clock 0, "USER", req.message⟩ : Item).Timestamp := by
      intro x hx hne
      simp only [List.mem_filter] at hx
      obtain ⟨hx1, hx2⟩ := hx
      rcases List.mem_append.mp hx1 with hsm | hsm
      · exact hfresh x hsm (by simpa using hx2)
      · have hxu : x = ⟨req.userId, env.clock 0, "USER", req.message⟩ := by
          simpa using hsm
        exact absurd hxu hne
    exact sortAsc_take_getLast _ _ 5 (by omega) hmem hmax
  refine ⟨?_, hlast, ?_⟩
  · simp [finalS, s0, send1_stageTrace]
  · unfold toGeminiHistory
    rw [List.getLast?_map, hlast]
    simp

theorem C10_current_user_message_in_window_witness :
    sendMessage1Of (finalS baseEnv (s0 []) ⟨"u1", "hi"⟩).trace =
      [(toGeminiHistory (histOf baseEnv (s0 []) ⟨"u1", "hi"⟩), "hi")] ∧
    (histOf baseEnv (s0 []) ⟨"u1", "hi"⟩).getLast? =
      some ⟨"u1", baseEnv.clock 0, "USER", "hi"⟩ ∧
    (toGeminiHistory (histOf baseEnv (s0 []) ⟨"u1", "hi"⟩)).getLast? =
      some ⟨"user", "hi"⟩ :=
  C10_current_user_message_in_window baseEnv [] ⟨"u1", "hi"⟩ "hello"
    (finalS baseEnv (s0 []) ⟨"u1", "hi"⟩) (by simp) rfl

end WeatherApp
